import Mathlib

/-!
Shallow embedding of the query/session controller of the pharmacy-directory
browser client: the `Directory` page component (filter criteria, pagination,
URL-shareable state, fetch coordination, CSV export) and the `AuthProvider`
session store (login contract, route guarding).

JavaScript dynamic values are modelled explicitly: `null` as `Option.none`,
the numeric `NaN` produced by `parseInt` as `none` in `JsInt`, string
truthiness as non-emptiness.
-/

/-- JavaScript number restricted to the integer values that occur in this
client; `none` models `NaN` (the result of `parseInt` on a non-numeric
string). Arithmetic on `NaN` propagates it, which `Option.map` captures. -/
abbrev JsInt := Option Int

/-- JavaScript `parseInt(s)` with the default radix as used at
`Directory.jsx:19`: skip leading whitespace, read an optional sign, then a
maximal run of decimal digits; with no digits the result is `NaN` (`none`).
The `0x` hexadecimal form of `parseInt` is never exercised by this client and
is not modelled. -/
def jsParseInt (s : String) : JsInt :=
  let cs := s.toList.dropWhile (fun c => c = ' ' ∨ c = '\t' ∨ c = '\n' ∨ c = '\r')
  let signAndRest : Int × List Char :=
    match cs with
    | '-' :: t => (-1, t)
    | '+' :: t => (1, t)
    | _ => (1, cs)
  let digits := signAndRest.2.takeWhile Char.isDigit
  if digits.isEmpty then none
  else some (signAndRest.1 * digits.foldl (fun acc c => acc * 10 + ((c.toNat : Int) - 48)) 0)

/-- JavaScript `o || d` for a nullable string `o`: the default `d` is taken
when `o` is `null` or the empty string (both falsy). -/
def jsOr (o : Option String) (d : String) : String :=
  match o with
  | none => d
  | some s => if s = "" then d else s

/-- One query-parameter view of a URL as read through
`useSearchParams().get`: each parameter is a string when present, `null`
(`none`) when absent. These are the six parameters `Directory.jsx:13-20`
reads. -/
structure UrlParams where
  search : Option String := none
  state : Option String := none
  city : Option String := none
  zip : Option String := none
  is_independent : Option String := none
  page : Option String := none
deriving DecidableEq, Repr

/-- The `filters` state object of `Directory.jsx:13-20`. `is_independent` is
`Option Bool` so that the `!== null` guard of `fetchData` is representable;
`page` is `JsInt` because `parseInt` can produce `NaN`. -/
structure Filters where
  search : String
  state : String
  city : String
  zip : String
  is_independent : Option Bool
  page : JsInt
deriving DecidableEq, Repr

/-- The initial `filters` state computed from the URL at
`Directory.jsx:13-20`: each text field is `searchParams.get(k) || default`,
`is_independent` is `get('is_independent') !== 'false'`, and `page` is
`parseInt(get('page') || '1')`. -/
def initFilters (u : UrlParams) : Filters :=
  { search := jsOr u.search ""
    state := jsOr u.state ""
    city := jsOr u.city ""
    zip := jsOr u.zip ""
    is_independent := some (decide (u.is_independent ≠ some "false"))
    page := jsParseInt (jsOr u.page "1") }

/-- A dynamic value passed as the second argument of `updateFilter`; the call
sites pass strings for the four text fields and a boolean for the checkbox. -/
inductive FVal where
  | str (s : String)
  | bool (b : Bool)
  | int (n : JsInt)
deriving DecidableEq, Repr

/-- The keys `updateFilter` can receive. -/
inductive FilterField where
  | search
  | state
  | city
  | zip
  | is_independent
  | page
deriving DecidableEq, Repr

/-- The computed-property assignment `{...prev, [key]: value}` of
`Directory.jsx:50`. Every call site passes a value of the field's own type
(strings into text fields, a boolean into the checkbox); a dynamically
mistyped assignment is unreachable and modelled as leaving the field
unchanged. -/
def assignField (k : FilterField) (v : FVal) (f : Filters) : Filters :=
  match k, v with
  | .search, .str s => { f with search := s }
  | .state, .str s => { f with state := s }
  | .city, .str s => { f with city := s }
  | .zip, .str s => { f with zip := s }
  | .is_independent, .bool b => { f with is_independent := some b }
  | .page, .int n => { f with page := n }
  | _, _ => f

/-- `updateFilter` of `Directory.jsx:49-51`:
`setFilters(prev => ({ ...prev, [key]: value, page: 1 }))`. The trailing
`page: 1` overrides unconditionally. -/
def updateFilter (k : FilterField) (v : FVal) (prev : Filters) : Filters :=
  { assignField k v prev with page := some 1 }

/-- The query-parameter object built inside `fetchData`
(`Directory.jsx:30-37`) and, with a different subset of fields set, by
`exportCSV` (`Directory.jsx:54-57`): `none` means the parameter is absent
from the outgoing request. -/
structure QueryParams where
  search : Option String := none
  state : Option String := none
  city : Option String := none
  zip : Option String := none
  is_independent : Option Bool := none
  page : Option JsInt := none
  per_page : Option Int := none
deriving DecidableEq, Repr

/-- The `params` object `fetchData` sends to `GET /pharmacies`
(`Directory.jsx:30-37`): each truthy text filter is included verbatim
(JavaScript string truthiness is non-emptiness, with no trimming),
`is_independent` is included whenever non-null, and `page` and
`per_page = 50` are always included. -/
def fetchDataParams (f : Filters) : QueryParams :=
  { search := if f.search = "" then none else some f.search
    state := if f.state = "" then none else some f.state
    city := if f.city = "" then none else some f.city
    zip := if f.zip = "" then none else some f.zip
    is_independent := f.is_independent
    page := some f.page
    per_page := some 50 }

/-- The query parameters `exportCSV` (`Directory.jsx:53-59`) places on the
`/api/exports/csv` URL: only `state`, `is_independent` and `search`, under
the same truthiness guards as `fetchData`; `city`, `zip` and the pagination
parameters are never set. -/
def exportCSVParams (f : Filters) : QueryParams :=
  { search := if f.search = "" then none else some f.search
    state := if f.state = "" then none else some f.state
    is_independent := f.is_independent }

/-- One record of the browsed collection; its display fields are pure
presentation and only the identity matters to the controller. -/
structure Pharmacy where
  id : Nat
deriving DecidableEq, Repr

/-- The listing response held in the `data` state of `Directory.jsx:10`:
`{ data, total, page, total_pages }`. -/
structure ResultPage where
  data : List Pharmacy
  total : Int
  page : Int
  total_pages : Int
deriving DecidableEq, Repr

/-- The initial `data` state of `Directory.jsx:10`. -/
def initialData : ResultPage :=
  { data := [], total := 0, page := 1, total_pages := 0 }

/-- The React state of the `Directory` component that the fetch cycle and the
pagination buttons read and write. -/
structure DirState where
  data : ResultPage
  loading : Bool
  filters : Filters
deriving DecidableEq, Repr

/-- Events observable at the `Directory` component's state: a fetch being
issued (`fetchData` runs `setLoading(true)` before its await), some
in-flight fetch resolving successfully with a payload, or some in-flight
fetch rejecting. -/
inductive FetchEvent where
  | issue
  | resolveOk (r : ResultPage)
  | resolveErr
deriving DecidableEq, Repr

/-- The state transition of `fetchData` (`Directory.jsx:27-45`) at each
event. On a successful resolution the handler runs `setData(res.data)` and
`setLoading(false)` unconditionally: no request ticket or sequence number is
consulted, so the handler is the same whichever in-flight request resolved.
On rejection the handler only logs and runs `setLoading(false)`. -/
def step (s : DirState) : FetchEvent → DirState
  | .issue => { s with loading := true }
  | .resolveOk r => { s with data := r, loading := false }
  | .resolveErr => { s with loading := false }

/-- Folding a sequence of fetch events over the component state: one
interleaving of issues and arrivals as scheduled by the event loop. -/
def runEvents (s : DirState) (es : List FetchEvent) : DirState :=
  es.foldl step s

/-- The "previous" pagination button (`Directory.jsx:191-195`): rendered only
when `data.total_pages > 1`, disabled when `data.page <= 1`, and when
clickable runs `setFilters(f => ({ ...f, page: f.page - 1 }))`. -/
def prevClick (s : DirState) : DirState :=
  if 1 < s.data.total_pages ∧ 1 < s.data.page then
    { s with filters := { s.filters with page := s.filters.page.map (· - 1) } }
  else s

/-- The "next" pagination button (`Directory.jsx:196-200`): rendered only
when `data.total_pages > 1`, disabled when `data.page >= data.total_pages`,
and when clickable runs `setFilters(f => ({ ...f, page: f.page + 1 }))`. -/
def nextClick (s : DirState) : DirState :=
  if 1 < s.data.total_pages ∧ s.data.page < s.data.total_pages then
    { s with filters := { s.filters with page := s.filters.page.map (· + 1) } }
  else s

/-- The pair of React states `searchParams` and `filters`: the URL the
component was mounted with, and the criteria. `setSearchParams` is
destructured at `Directory.jsx:8` but never called, so no operation of the
component writes `url`. -/
structure CompState where
  url : UrlParams
  filters : Filters
deriving DecidableEq, Repr

/-- Mounting the `Directory` component on a URL: the criteria are parsed from
the URL once (`Directory.jsx:13-20`); the URL itself is kept as read. -/
def mountDirectory (u : UrlParams) : CompState :=
  { url := u, filters := initFilters u }

/-- The `updateFilter` handler viewed on the combined URL-and-criteria state:
it calls only `setFilters` (`Directory.jsx:49-51`), never `setSearchParams`. -/
def updateFilterC (k : FilterField) (v : FVal) (s : CompState) : CompState :=
  { s with filters := updateFilter k v s.filters }

/-- Modelled from the spec: the shareable-URL serialization the spec claims
`setFilter` performs ("query parameters search, state, city, zip,
is_independent, page mirror FilterCriteria field-for-field; absent
parameters map to defaults"). No such serialization exists in the source;
this definition follows the spec's words so that the claimed agreement
between URL and criteria can be stated and compared with the code. -/
def specSerialize (f : Filters) : UrlParams :=
  { search := if f.search = "" then none else some f.search
    state := if f.state = "" then none else some f.state
    city := if f.city = "" then none else some f.city
    zip := if f.zip = "" then none else some f.zip
    is_independent :=
      match f.is_independent with
      | some true => none
      | some false => some "false"
      | none => none
    page :=
      match f.page with
      | some 1 => none
      | some n => some (toString n)
      | none => none }

/-- The authenticated user's profile as returned by the login and
identity-check collaborators. -/
structure Identity where
  email : String
deriving DecidableEq, Repr

/-- A successful `/auth/login` response body: `{ access_token, user }`. -/
structure LoginResp where
  access_token : String
  user : Identity
deriving DecidableEq, Repr

/-- The `AuthProvider` state (`App.jsx`): the `localStorage` token slot and
the `user` React state; `user = none` is Anonymous. -/
structure AuthState where
  storedToken : Option String
  user : Option Identity
deriving DecidableEq, Repr

/-- The `login` function of `AuthProvider`: `await api.post('/auth/login')`;
on a fulfilled promise it persists `res.data.access_token` to localStorage,
sets `user` to `res.data.user`, and returns `res.data`. On a rejected
promise the `await` rethrows before either write executes, so the state is
untouched and the error propagates to the caller. The collaborator's outcome
is the explicit argument; errors carry the server-supplied message. -/
def login (s : AuthState) (resp : Except String LoginResp) :
    AuthState × Except String LoginResp :=
  match resp with
  | .ok r => ({ storedToken := some r.access_token, user := some r.user }, .ok r)
  | .error e => (s, .error e)

/-- `ProtectedRoute` (`App.jsx`): a protected subtree is admitted exactly
when `user` is non-null. -/
def isAuthenticated (s : AuthState) : Bool :=
  s.user.isSome

/-- A concrete `Directory` state used to instantiate counterexamples and
witnesses: the component as mounted on a bare URL, before any fetch
resolved. -/
def dirS0 : DirState :=
  { data := initialData, loading := false, filters := initFilters {} }

/-- A concrete listing result, distinct from `resultB`. -/
def resultA : ResultPage :=
  { data := [⟨1⟩], total := 1, page := 1, total_pages := 1 }

/-- A concrete listing result, distinct from `resultA`. -/
def resultB : ResultPage :=
  { data := [⟨2⟩], total := 2, page := 1, total_pages := 1 }

/-- Modelled from the spec: the whitespace trimming the encoding rule appeals
to ("non-empty after trimming"); the source itself never trims, so this
definition exists only to state the claimed condition. Removes leading and
trailing whitespace characters. -/
def specTrim (s : String) : String :=
  ⟨((s.toList.dropWhile Char.isWhitespace).reverse.dropWhile Char.isWhitespace).reverse⟩

/-- A criteria value whose free text is a single space: truthy in JavaScript
yet empty after trimming. -/
def searchWs : Filters :=
  { search := " ", state := "", city := "", zip := ""
    is_independent := some true, page := some 1 }

/-- A criteria value with a city filter set, on which the export request and
the listing request disagree. -/
def cityFilters : Filters :=
  { search := "", state := "", city := "BOSTON", zip := ""
    is_independent := some true, page := some 1 }

/-- Claim C1, counterexample: request A is issued, then overlapping request B;
B's response arrives first and A's arrives second. The displayed ResultPage
is A's result, not B's, because the resolution handler of `fetchData` applies
`setData` unconditionally — there is no sequence-number comparison and no
stale-response discard in the source. -/
theorem race_unsafe_last_arrival_wins_cex :
    (runEvents dirS0
      [FetchEvent.issue, FetchEvent.issue,
       FetchEvent.resolveOk resultB, FetchEvent.resolveOk resultA]).data = resultA ∧
    resultA ≠ resultB :=
  ⟨rfl, by decide⟩

/-- Claim C1, amended: the displayed ResultPage equals the result of whichever
response arrives last, regardless of issue order; no response is ever
discarded. -/
theorem displayed_equals_last_arrival
    (s : DirState) (es : List FetchEvent) (r : ResultPage) :
    (runEvents s (es ++ [FetchEvent.resolveOk r])).data = r := by
  unfold runEvents
  rw [List.foldl_append]
  rfl

/-- Claim C2, counterexample: mounting on a bare URL and then calling
`updateFilter('state', 'NY')` leaves the URL parameters untouched, so they do
not equal the serialization of the updated criteria. -/
theorem url_not_resynced_cex :
    (updateFilterC FilterField.state (FVal.str "NY") (mountDirectory {})).url ≠
      specSerialize
        (updateFilterC FilterField.state (FVal.str "NY") (mountDirectory {})).filters := by
  decide

/-- Claim C2, amended: `updateFilter` changes only the criteria; the URL is
parsed once at mount and never re-serialized (`setSearchParams` is
destructured but never called), so every criteria change leaves the URL at
its mount-time value. -/
theorem updateFilter_preserves_url (k : FilterField) (v : FVal) (s : CompState) :
    (updateFilterC k v s).url = s.url :=
  rfl

/-- Claim C3, counterexample: a failed fetch leaves the component in exactly
the state a successful fetch returning the currently displayed page would
produce — the two transitions are equal at this state — so no error flag (no
state component at all) records the failure. -/
theorem fetch_failure_indistinguishable_cex :
    step dirS0 FetchEvent.resolveErr = step dirS0 (FetchEvent.resolveOk initialData) := by
  decide

/-- Claim C3, amended: on failure of a fetch the displayed ResultPage is
retained and `loading` is set to `false`, but no error flag is set — the
catch block only logs, and the component state has no error field. -/
theorem fetch_failure_retains_data (s : DirState) :
    (step s FetchEvent.resolveErr).data = s.data ∧
    (step s FetchEvent.resolveErr).loading = false :=
  ⟨rfl, rfl⟩

/-- Claim C4: for every filter field other than the page and every value,
`updateFilter` yields criteria whose page number is 1 — the object spread
ends with `page: 1`, overriding whatever was there. -/
theorem updateFilter_resets_page (k : FilterField) (v : FVal) (f : Filters)
    (_h : k ≠ FilterField.page) :
    (updateFilter k v f).page = some 1 :=
  rfl

/-- Claim C4, witness: changing the state filter on the default criteria
resets the page to 1. -/
theorem updateFilter_resets_page_witness :
    FilterField.state ≠ FilterField.page ∧
    (updateFilter FilterField.state (FVal.str "NY") (initFilters {})).page = some 1 :=
  ⟨by decide, updateFilter_resets_page FilterField.state (FVal.str "NY") (initFilters {}) (by decide)⟩

/-- Claim C5, counterexample: mounting with URL parameter `page=0` produces
criteria with page 0 and the very first fetch is issued with `page = 0 < 1`;
nothing clamps the page to 1 before the request goes out. -/
theorem fetch_page_below_one_cex :
    (fetchDataParams (initFilters { page := some "0" })).page = some (some 0) ∧
    (0 : Int) < 1 :=
  ⟨by decide, by decide⟩

/-- Claim C5, amended: the next button is a no-op (disabled or hidden)
whenever the displayed page is at or past `total_pages`, and the previous
button is a no-op whenever the displayed page is at or below 1; but page
values below 1 are never clamped, so a fetch can be issued with page < 1. -/
theorem pagination_noop_at_bounds (s : DirState) :
    (s.data.total_pages ≤ s.data.page → nextClick s = s) ∧
    (s.data.page ≤ 1 → prevClick s = s) := by
  constructor
  · intro h
    have hn : ¬(1 < s.data.total_pages ∧ s.data.page < s.data.total_pages) := by omega
    simp [nextClick, hn]
  · intro h
    have hn : ¬(1 < s.data.total_pages ∧ 1 < s.data.page) := by omega
    simp [prevClick, hn]

/-- Claim C5, witness: in the freshly mounted state (page 1 of 0 total pages)
both pagination buttons are no-ops. -/
theorem pagination_noop_at_bounds_witness :
    nextClick dirS0 = dirS0 ∧ prevClick dirS0 = dirS0 :=
  ⟨(pagination_noop_at_bounds dirS0).1 (by decide),
   (pagination_noop_at_bounds dirS0).2 (by decide)⟩

/-- Claim C6, counterexample: the invalid URL parameter `page=abc` does not
fall back to the default page 1 — `parseInt` yields `NaN`, which the
initializer stores as-is. -/
theorem invalid_page_param_cex :
    (initFilters { page := some "abc" }).page = none ∧ (none : JsInt) ≠ some 1 :=
  ⟨by decide, by decide⟩

/-- Claim C6, amended: every missing URL parameter falls back to its default
(empty free text, no state/city/zip filter, independent-only true, page 1);
an invalid page parameter, however, is parsed to `NaN` rather than defaulted,
and out-of-range numeric pages are kept as given. -/
theorem missing_params_fall_back_to_defaults (u : UrlParams) :
    (initFilters { u with search := none }).search = "" ∧
    (initFilters { u with state := none }).state = "" ∧
    (initFilters { u with city := none }).city = "" ∧
    (initFilters { u with zip := none }).zip = "" ∧
    (initFilters { u with is_independent := none }).is_independent = some true ∧
    (initFilters { u with page := none }).page = some 1 :=
  ⟨rfl, rfl, rfl, rfl, rfl, rfl⟩

/-- Claim C7, counterexample: a free text consisting of one space is empty
after trimming, yet `fetchData` includes it verbatim as the `search`
parameter — the truthiness test `if (filters.search)` does not trim. -/
theorem whitespace_search_not_trimmed_cex :
    (fetchDataParams searchWs).search = some " " ∧ specTrim " " = "" :=
  ⟨rfl, by decide⟩

/-- Claim C7, amended: the `search` parameter is included exactly when the
free text is non-empty, taken verbatim with no trimming; in particular
setting the free text to the empty string yields a query with no `search`
parameter. -/
theorem search_param_iff_nonempty (f : Filters) :
    (fetchDataParams f).search = (if f.search = "" then none else some f.search) ∧
    (fetchDataParams (updateFilter FilterField.search (FVal.str "") f)).search = none :=
  ⟨rfl, rfl⟩

/-- Claim C8, counterexample: with a city filter set, the export request does
not carry the same filter parameters as the listing query minus pagination —
`exportCSV` never sets `city` (nor `zip`), while `fetchData` does. -/
theorem export_omits_city_cex :
    exportCSVParams cityFilters ≠
      { fetchDataParams cityFilters with page := none, per_page := none } := by
  decide

/-- Claim C8, amended: the export request carries the `search`, `state` and
`is_independent` parameters of the listing query under the same omission
rules, and drops not only the pagination parameters but also `city` and
`zip`. -/
theorem export_params_derivation (f : Filters) :
    exportCSVParams f =
      { fetchDataParams f with city := none, zip := none, page := none, per_page := none } :=
  rfl

/-- Claim C9: when the login collaborator succeeds, the returned token is
persisted, the identity is set, the session is Authenticated, and the payload
is returned; when it fails, the `await` rethrows before any write, so the
state (token slot and identity) is exactly unchanged and the call fails with
the collaborator's error. -/
theorem login_contract (s : AuthState) (r : LoginResp) (e : String) :
    (login s (Except.ok r)).1.storedToken = some r.access_token ∧
    (login s (Except.ok r)).1.user = some r.user ∧
    isAuthenticated (login s (Except.ok r)).1 = true ∧
    (login s (Except.ok r)).2 = Except.ok r ∧
    (login s (Except.error e)).1 = s ∧
    (login s (Except.error e)).2 = Except.error e :=
  ⟨rfl, rfl, rfl, rfl, rfl, rfl⟩

/-- Claim C10: every listing fetch carries `per_page = 50`; the constant is a
literal inside `fetchData`, independent of the criteria, so no operation on
the criteria can alter it. -/
theorem fetch_per_page_constant (f : Filters) :
    (fetchDataParams f).per_page = some 50 :=
  rfl
